import Mathlib

/-!
Verification of the QueEngine c2pa adapter layer (crates/engine/src/adapters/c2pa)
against its natural-language specification.

The Rust sources are shallowly embedded: byte slices become `List Nat`
(each element `< 256`), fallible calls return `Except EngineError`,
filesystem / environment / process-wide state is passed explicitly, and
`cfg!` features become `Bool` parameters.
-/

namespace QueEngine

/-- Errors: `EngineError` from `domain/error.rs`.  I/O error payloads are abstracted
to plain strings.  The `Panic` constructor is the variant referenced by
`adapters/c2pa/settings.rs` for captured panics and mutex poisoning. -/
inductive EngineError : Type
  | Config (msg : String)
  | Io (msg : String)
  | C2pa (msg : String)
  | VerificationFailed
  | Feature (name : String)
  | Panic (msg : String)
deriving DecidableEq, Repr

/-- ASCII bytes of a string literal (all source signatures are ASCII). -/
def asciiBytes (s : String) : List Nat := s.toList.map Char.toNat

/-- Slice comparison `data[start .. start+sig.len] == sig` on byte slices; false when the
slice would run past the end (the Rust code guards lengths explicitly, and
this helper is only consulted under those guards). -/
def sliceEq (data : List Nat) (start : Nat) (sig : List Nat) : Bool :=
  ((data.drop start).take sig.length) == sig

/-- Indexing `data[i]`, defaulting to 0 out of range (used only under length guards). -/
def byteAt (data : List Nat) (i : Nat) : Nat := data.getD i 0

/-- Byte-level model of `u8::to_ascii_lowercase`. -/
def toAsciiLower (b : Nat) : Nat := if 65 ≤ b ∧ b ≤ 90 then b + 32 else b

/-- Contiguous-substring search, modelling `str::contains` on the byte level. -/
def containsSub (pat : List Nat) (l : List Nat) : Bool :=
  (List.range (l.length + 1)).any fun i => sliceEq l i pat

/-- Model of `std::str::from_utf8(..).is_ok()`: WHATWG/RFC 3629 UTF-8
well-formedness (rejecting overlong forms, surrogates, and values above
U+10FFFF), exactly the shape table Rust's validator implements. -/
def validUtf8 : List Nat → Bool
  | [] => true
  | b :: rest =>
    if b < 0x80 then validUtf8 rest
    else if b < 0xC2 then false
    else if b ≤ 0xDF then
      match rest with
      | b1 :: r => decide (0x80 ≤ b1 ∧ b1 ≤ 0xBF) && validUtf8 r
      | [] => false
    else if b = 0xE0 then
      match rest with
      | b1 :: b2 :: r =>
        decide (0xA0 ≤ b1 ∧ b1 ≤ 0xBF) && decide (0x80 ≤ b2 ∧ b2 ≤ 0xBF) && validUtf8 r
      | _ => false
    else if b ≤ 0xEC then
      match rest with
      | b1 :: b2 :: r =>
        decide (0x80 ≤ b1 ∧ b1 ≤ 0xBF) && decide (0x80 ≤ b2 ∧ b2 ≤ 0xBF) && validUtf8 r
      | _ => false
    else if b = 0xED then
      match rest with
      | b1 :: b2 :: r =>
        decide (0x80 ≤ b1 ∧ b1 ≤ 0x9F) && decide (0x80 ≤ b2 ∧ b2 ≤ 0xBF) && validUtf8 r
      | _ => false
    else if b ≤ 0xEF then
      match rest with
      | b1 :: b2 :: r =>
        decide (0x80 ≤ b1 ∧ b1 ≤ 0xBF) && decide (0x80 ≤ b2 ∧ b2 ≤ 0xBF) && validUtf8 r
      | _ => false
    else if b = 0xF0 then
      match rest with
      | b1 :: b2 :: b3 :: r =>
        decide (0x90 ≤ b1 ∧ b1 ≤ 0xBF) && decide (0x80 ≤ b2 ∧ b2 ≤ 0xBF) &&
          decide (0x80 ≤ b3 ∧ b3 ≤ 0xBF) && validUtf8 r
      | _ => false
    else if b ≤ 0xF3 then
      match rest with
      | b1 :: b2 :: b3 :: r =>
        decide (0x80 ≤ b1 ∧ b1 ≤ 0xBF) && decide (0x80 ≤ b2 ∧ b2 ≤ 0xBF) &&
          decide (0x80 ≤ b3 ∧ b3 ≤ 0xBF) && validUtf8 r
      | _ => false
    else if b = 0xF4 then
      match rest with
      | b1 :: b2 :: b3 :: r =>
        decide (0x80 ≤ b1 ∧ b1 ≤ 0x8F) && decide (0x80 ≤ b2 ∧ b2 ≤ 0xBF) &&
          decide (0x80 ≤ b3 ∧ b3 ≤ 0xBF) && validUtf8 r
      | _ => false
    else false

/-- Function `detect_extension_from_bytes` from `adapters/c2pa/content_detection.rs`,
branch for branch in source order. -/
def detect_extension_from_bytes (data : List Nat) : Option String :=
  -- JPEG
  if data.length ≥ 3 && byteAt data 0 == 0xFF && byteAt data 1 == 0xD8 && byteAt data 2 == 0xFF then
    some "jpg"
  -- PNG
  else if data.length ≥ 8 && sliceEq data 0 [0x89, 0x50, 0x4E, 0x47, 0x0D, 0x0A, 0x1A, 0x0A] then
    some "png"
  -- GIF
  else if data.length ≥ 6 && (sliceEq data 0 (asciiBytes "GIF87a") || sliceEq data 0 (asciiBytes "GIF89a")) then
    some "gif"
  -- WebP
  else if data.length ≥ 12 && sliceEq data 0 (asciiBytes "RIFF") && sliceEq data 8 (asciiBytes "WEBP") then
    some "webp"
  -- WAV
  else if data.length ≥ 12 && sliceEq data 0 (asciiBytes "RIFF") && sliceEq data 8 (asciiBytes "WAVE") then
    some "wav"
  -- AVI
  else if data.length ≥ 12 && sliceEq data 0 (asciiBytes "RIFF") && sliceEq data 8 (asciiBytes "AVI ") then
    some "avi"
  -- TIFF
  else if data.length ≥ 4 && (sliceEq data 0 [0x49, 0x49, 0x2A, 0x00] || sliceEq data 0 [0x4D, 0x4D, 0x00, 0x2A]) then
    some "tiff"
  -- MP4/MOV/ISO-BMFF (ftyp box)
  else if data.length ≥ 12 && sliceEq data 4 (asciiBytes "ftyp") then
    if data.length ≥ 16 then
      if sliceEq data 8 (asciiBytes "heic") then some "heic"
      else if sliceEq data 8 (asciiBytes "heif") then some "heif"
      else if sliceEq data 8 (asciiBytes "avif") then some "avif"
      else if sliceEq data 8 (asciiBytes "mp42") || sliceEq data 8 (asciiBytes "isom") ||
              sliceEq data 8 (asciiBytes "mp41") || sliceEq data 8 (asciiBytes "dash") then some "mp4"
      else if sliceEq data 8 (asciiBytes "qt  ") then some "mov"
      else if sliceEq data 8 (asciiBytes "M4A ") || sliceEq data 8 (asciiBytes "m4af") then some "m4a"
      -- Default to mp4 for unknown ftyp
      else some "mp4"
    else some "mp4"
  -- PDF
  else if data.length ≥ 5 && sliceEq data 0 (asciiBytes "%PDF-") then
    some "pdf"
  -- SVG: first byte must be a bracket, head must be UTF-8, lowercased head contains the svg tag
  else if data.length ≥ 5 && byteAt data 0 == 0x3C &&
          validUtf8 (data.take (min 512 data.length)) &&
          containsSub (asciiBytes "<svg") ((data.take (min 512 data.length)).map toAsciiLower) then
    some "svg"
  -- MP3
  else if data.length ≥ 3 && sliceEq data 0 (asciiBytes "ID3") then
    some "mp3"
  else if data.length ≥ 2 && byteAt data 0 == 0xFF && (byteAt data 1 &&& 0xE0) == 0xE0 then
    some "mp3"
  else
    none

/-! ## UrlGuard: `adapters/c2pa/url_validation.rs`

The `url` crate's parser is third-party; the embedding starts from the
parsed shape of a URL (scheme string plus optional host).  DNS resolution
(`ToSocketAddrs`) is an environment effect and is passed in as
`resolved : Option (List IpAddr)`; `none` models `to_socket_addrs`
returning `Err`.  For a literal-IP host `to_socket_addrs` is deterministic
and yields exactly that address, which theorems instantiate accordingly.
The `http_urls` cargo feature is the `feat` parameter. -/

/-- IPv4 address as four octets. -/
structure Ipv4 where
  o0 : Nat
  o1 : Nat
  o2 : Nat
  o3 : Nat
deriving DecidableEq, Repr

/-- IPv6 address as eight 16-bit segments. -/
structure Ipv6 where
  s0 : Nat
  s1 : Nat
  s2 : Nat
  s3 : Nat
  s4 : Nat
  s5 : Nat
  s6 : Nat
  s7 : Nat
deriving DecidableEq, Repr

inductive IpAddr : Type
  | v4 (a : Ipv4)
  | v6 (a : Ipv6)
deriving DecidableEq, Repr

/-- Host type `url::Host`. -/
inductive Host : Type
  | ipv4 (a : Ipv4)
  | ipv6 (a : Ipv6)
  | domain (d : String)
deriving DecidableEq, Repr

/- Rust `std::net::Ipv4Addr` classification predicates, as documented and
implemented in the standard library. -/

def Ipv4.isPrivate (a : Ipv4) : Bool :=
  a.o0 == 10 || (a.o0 == 172 && 16 ≤ a.o1 && a.o1 ≤ 31) || (a.o0 == 192 && a.o1 == 168)

def Ipv4.isLoopback (a : Ipv4) : Bool := a.o0 == 127

def Ipv4.isLinkLocal (a : Ipv4) : Bool := a.o0 == 169 && a.o1 == 254

def Ipv4.isBroadcast (a : Ipv4) : Bool :=
  a.o0 == 255 && a.o1 == 255 && a.o2 == 255 && a.o3 == 255

def Ipv4.isDocumentation (a : Ipv4) : Bool :=
  (a.o0 == 192 && a.o1 == 0 && a.o2 == 2) ||
  (a.o0 == 198 && a.o1 == 51 && a.o2 == 100) ||
  (a.o0 == 203 && a.o1 == 0 && a.o2 == 113)

def Ipv4.isUnspecified (a : Ipv4) : Bool :=
  a.o0 == 0 && a.o1 == 0 && a.o2 == 0 && a.o3 == 0

def Ipv4.isMulticast (a : Ipv4) : Bool := 224 ≤ a.o0 && a.o0 ≤ 239

/- Rust `std::net::Ipv6Addr` classification predicates. -/

def Ipv6.isLoopback (a : Ipv6) : Bool :=
  a.s0 == 0 && a.s1 == 0 && a.s2 == 0 && a.s3 == 0 &&
  a.s4 == 0 && a.s5 == 0 && a.s6 == 0 && a.s7 == 1

def Ipv6.isUnspecified (a : Ipv6) : Bool :=
  a.s0 == 0 && a.s1 == 0 && a.s2 == 0 && a.s3 == 0 &&
  a.s4 == 0 && a.s5 == 0 && a.s6 == 0 && a.s7 == 0

def Ipv6.isUniqueLocal (a : Ipv6) : Bool := (a.s0 &&& 0xFE00) == 0xFC00

def Ipv6.isUnicastLinkLocal (a : Ipv6) : Bool := (a.s0 &&& 0xFFC0) == 0xFE80

def Ipv6.isMulticast (a : Ipv6) : Bool := (a.s0 &&& 0xFF00) == 0xFF00

/-- The `is_blocked` expression of `url_validation.rs` lines 31-34 and 46-49:
the per-family range rejection applied both to literal hosts and to every
resolved address.  Note the IPv4 arm has no `is_multicast` test. -/
def ipBlocked : IpAddr → Bool
  | .v4 a => a.isPrivate || a.isLoopback || a.isLinkLocal || a.isBroadcast ||
             a.isDocumentation || a.isUnspecified
  | .v6 a => a.isLoopback || a.isUniqueLocal || a.isUnicastLinkLocal ||
             a.isUnspecified || a.isMulticast

/-- Function `validate_external_http_url` over the parsed URL.  `feat` is the
`http_urls` cargo feature; `resolved` is the outcome of
`(host_str, default_port).to_socket_addrs()`. -/
def validate_external_http_url (feat : Bool) (resolved : Option (List IpAddr))
    (scheme : String) (host : Option Host) (allow_http : Bool) :
    Except EngineError Unit :=
  let schemeCheck : Except EngineError Unit :=
    if scheme = "https" then .ok ()
    else if scheme = "http" then
      if feat then
        if allow_http then .ok () else .error (.Config "HTTP URLs are not allowed")
      else
        if allow_http then .error (.Feature "http_urls")
        else .error (.Config "HTTP URLs are not allowed")
    else .error (.Config "unsupported URL scheme")
  match schemeCheck with
  | .error e => .error e
  | .ok _ =>
    match host with
    | none => .error (.Config "URL missing host")
    | some h =>
      let ipOpt : Option IpAddr :=
        match h with
        | .ipv4 a => some (.v4 a)
        | .ipv6 a => some (.v6 a)
        | .domain _ => none
      let blockedLiteral : Bool :=
        match ipOpt with
        | some ip => ipBlocked ip
        | none => false
      if blockedLiteral then
        .error (.Config "URL host is not allowed (private/link-local/loopback)")
      else
        -- DNS resolution hardening: block hosts resolving to disallowed IPs
        let default_port : Nat :=
          if scheme = "https" then 443 else if scheme = "http" then 80 else 0
        if default_port ≠ 0 then
          match resolved with
          | some addrs =>
            if addrs.any ipBlocked then
              .error (.Config "URL resolves to a disallowed private/loopback address")
            else .ok ()
          | none => .ok ()
        else .ok ()

/-! ## SettingsGuard: `adapters/c2pa/settings.rs`

`c2pa::settings::Settings` is the wrapped library's process-wide state.  It
is modelled as the list of patch-fragment ids applied since the last reset
to `BASE_SETTINGS` (`"{}"`), so the empty baseline is `[]`.  A
`SettingsPatch` carries an `ok` flag telling whether
`Settings::from_string(&patch, "json")` succeeds on it (the library's
parser is deterministic).  `BASE_SETTINGS` is a fixed valid constant, so
resetting to the baseline is modelled as always succeeding; the code
ignores the final restore's result (`let _ = ...`) in any case.  The
embedding models the `c2pa`-feature build (without that feature the whole
guard degenerates to a constant `Feature` error).  Panics of the wrapped
operation are values of `OpOutcome`, and mutex poisoning is the `poisoned`
flag observed at acquisition. -/

/-- One JSON settings fragment; `ok` records whether the library accepts it. -/
structure SettingsPatch where
  id : Nat
  ok : Bool
deriving DecidableEq, Repr

/-- Process-wide settings state: fragment ids applied since the last
baseline reset. -/
abbrev SettingsState := List Nat

/-- The patch loop of `apply_settings` (lines 21-23): apply fragments
left to right, aborting on the first fragment the library rejects. -/
def applySettingsLoop : List SettingsPatch → SettingsState →
    Except EngineError Unit × SettingsState
  | [], st => (.ok (), st)
  | p :: rest, st =>
    if p.ok then applySettingsLoop rest (st ++ [p.id])
    else (.error (.C2pa "settings parse error"), st)

/-- Function `apply_settings`: reset to the empty baseline, then apply each
fragment in order. -/
def apply_settings (jsons : List SettingsPatch) (_s : SettingsState) :
    Except EngineError Unit × SettingsState :=
  applySettingsLoop jsons []

/-- Outcome of the wrapped closure `f`: normal value, typed error, or a
panic captured by `catch_unwind`. -/
inductive OpOutcome (T : Type) : Type
  | ok (t : T)
  | err (e : EngineError)
  | panics
deriving DecidableEq, Repr

/-- Function `with_c2pa_settings`: acquire the global mutex (failing on poisoning),
apply the patches (early `?` return on failure, with no restore), run the
operation under `catch_unwind`, always restore the baseline afterwards,
then surface the operation's outcome. -/
def with_c2pa_settings {T : Type} (poisoned : Bool) (settings : List SettingsPatch)
    (f : OpOutcome T) (s : SettingsState) :
    Except EngineError T × SettingsState :=
  if poisoned then (.error (.Panic "settings mutex poisoned"), s)
  else
    match apply_settings settings s with
    | (.error e, s1) => (.error e, s1)
    | (.ok _, s1) =>
      let _ := s1
      -- always attempt to restore baseline settings (result ignored)
      let s2 : SettingsState := []
      match f with
      | .ok t => (.ok t, s2)
      | .err e => (.error e, s2)
      | .panics => (.error (.Panic "c2pa adapter panicked"), s2)

/-! ## Stream copying: `copy_with_limits` in `adapters/c2pa/asset_utils.rs`

A reader is the list of byte chunks its successive `read` calls produce
(each at most the 8192-byte buffer; a `0`-length chunk or the end of the
list is EOF).  The destination is modelled as the list of bytes written so
far, returned alongside the result; read/write I/O errors do not interact
with the size-cap logic and the theorems quantify over failure-free
readers. -/

/-- The copy loop of `copy_with_limits`: before writing a chunk, check
whether it would push the running total past `maxBytes` and abort with a
`Config` error, leaving the already-written bytes in place. -/
def copyLoop : List (List Nat) → Nat → List Nat → Nat →
    Except EngineError Nat × List Nat
  | [], total, written, _maxBytes => (.ok total, written)
  | c :: rest, total, written, maxBytes =>
    if c.length = 0 then (.ok total, written)   -- EOF reached
    else
      let newTotal := total + c.length
      if newTotal > maxBytes then
        (.error (.Config ("Stream size limit exceeded: " ++ toString newTotal ++
          " bytes (max: " ++ toString maxBytes ++ ")")), written)
      else copyLoop rest newTotal (written ++ c) maxBytes

/-- Function `copy_with_limits`: run the loop from an empty destination and a zero
running total. -/
def copy_with_limits (chunks : List (List Nat)) (maxBytes : Nat) :
    Except EngineError Nat × List Nat :=
  copyLoop chunks 0 [] maxBytes

/-- Total number of bytes a reader yields before EOF (a zero-length read
ends the stream). -/
def streamLen : List (List Nat) → Nat
  | [] => 0
  | c :: rest => if c.length = 0 then 0 else c.length + streamLen rest

/-! ## AssetMaterializer: `asset_to_temp_path` in `adapters/c2pa/asset_utils.rs`

A `Stream` asset is modelled by the data the underlying reader hands back:
`sniffRead` is the outcome of the single `read(&mut [0u8; 512])` sniff call
(`none` = the read returns `Err`; `some h` = it returns `h.length ≤ 512`
bytes), `seekOk` is the outcome of the `seek(SeekFrom::Start(0))` rewind,
and `body` is the chunk sequence the copy loop subsequently reads.
`fsOk` models the success of the temp-directory/file creations and writes
performed by this call (its failure paths surface as `Io` errors).
The result carries the chosen filename and whether an owned temp dir is
returned; `Effects` records directories actually created and bytes written
to disk. -/

/-- Limits type `LimitsConfig` from `domain/types/config.rs`. -/
structure LimitsConfig where
  max_in_memory_asset_size : Nat
  max_in_memory_output_size : Nat
  max_stream_copy_size : Nat
  max_stream_read_timeout_secs : Nat
deriving DecidableEq, Repr

/-- Defaults `LimitsConfig::defaults()`. -/
def LimitsConfig.defaults : LimitsConfig :=
  { max_in_memory_asset_size := 128 * 1024 * 1024
    max_in_memory_output_size := 128 * 1024 * 1024
    max_stream_copy_size := 1024 * 1024 * 1024
    max_stream_read_timeout_secs := 300 }

/-- Asset type `AssetRef` from `domain/types/asset.rs`, with the `Stream` reader
replaced by the observations described above. -/
inductive AssetRef : Type
  | path (p : String)
  | bytes (data : List Nat)
  | stream (sniffRead : Option (List Nat)) (seekOk : Bool)
      (body : List (List Nat)) (content_type : Option String)
deriving DecidableEq, Repr

/-- Filesystem effects performed by a call. -/
structure Effects where
  tempdirs : Nat
  writtenBytes : List Nat
deriving DecidableEq, Repr

/-- The content-type hint table of the `Stream` arm (lines 65-74). -/
def filenameForContentType (ct : String) : String :=
  if ct = "image/jpeg" then "asset.jpg"
  else if ct = "image/png" then "asset.png"
  else if ct = "image/gif" then "asset.gif"
  else if ct = "image/webp" then "asset.webp"
  else if ct = "video/mp4" then "asset.mp4"
  else if ct = "audio/mpeg" then "asset.mp3"
  else if ct = "application/pdf" then "asset.pdf"
  else "asset"

/-- Function `asset_to_temp_path`.  Returned value: chosen path (for temp assets,
the filename inside the fresh directory) and whether an owned temp dir
accompanies it. -/
def asset_to_temp_path (fsOk : Bool) (asset : AssetRef) (limits : LimitsConfig) :
    Except EngineError (String × Bool) × Effects :=
  match asset with
  | .path p => (.ok (p, false), ⟨0, []⟩)
  | .bytes data =>
    if data.length > limits.max_in_memory_asset_size then
      (.error (.Config "in-memory asset too large"), ⟨0, []⟩)
    else if !fsOk then (.error (.Io "tempdir failed"), ⟨0, []⟩)
    else
      let filename :=
        match detect_extension_from_bytes data with
        | some ext => "asset." ++ ext
        | none => "asset"
      (.ok (filename, true), ⟨1, data⟩)
  | .stream sniffRead seekOk body content_type =>
    if !fsOk then (.error (.Io "tempdir failed"), ⟨0, []⟩)
    else
      let filename :=
        match content_type with
        | some ct => filenameForContentType ct
        | none =>
          -- sniff a few bytes: `read(..).unwrap_or(0)` swallows a read
          -- failure, and `let _ = seek(..)` discards the rewind's outcome
          let head := sniffRead.getD []
          let _ := seekOk
          let maybe_ext :=
            if head.length > 0 then detect_extension_from_bytes head else none
          match maybe_ext with
          | some ext => "asset." ++ ext
          | none => "asset"
      match copy_with_limits body limits.max_stream_copy_size with
      | (.ok _, written) => (.ok (filename, true), ⟨1, written⟩)
      | (.error e, written) => (.error e, ⟨1, written⟩)

/-! ## KeyMaterialHandler: `adapters/c2pa/cawg.rs` (the `unix` + `cawg` build)

The environment bundles the externally observable inputs: file modes
(`fs::metadata(..).permissions().mode()`), file contents (`fs::read`),
environment variables (`env::var`), and whether
`raw_signature::async_signer_from_cert_chain_and_private_key` succeeds on
a given cert/key pair (the algorithm and timestamp-URL arguments do not
affect the control flow modelled here and are elided).  Each call returns
its result together with an ordered event trace (stats, file reads, env
reads, signer-construction attempts) and one `BufferRecord` per local
cert/key byte buffer, flagging whether `zeroize()` ran before the buffer
was dropped.  Intermediate `String` values (env-var payloads before
`into_bytes`) are not tracked as buffers.  Env-var payloads are modelled
as ASCII. -/

/-- External inputs of a signer-construction call. -/
structure SysEnv where
  fileModes : String → Option Nat
  fileData : String → Option (List Nat)
  envVars : String → Option String
  signerOk : List Nat → List Nat → Bool

/-- Signer source `crypto::signer::Signer`: filesystem path pair or env-var pair. -/
inductive Signer : Type
  | Local (cert_path key_path : String)
  | Env (cert_var key_var : String)
deriving DecidableEq, Repr

/-- CAWG signer choice `domain::cawg::CawgSigner`. -/
inductive CawgSigner : Type
  | UseMainSigner
  | Separate (s : Signer)
deriving DecidableEq, Repr

/-- CAWG identity `domain::cawg::CawgIdentity`, restricted to the field that drives the
control flow modelled here. -/
structure CawgIdentity where
  signer : CawgSigner
deriving DecidableEq, Repr

/-- Observable steps of a signer-construction call, in order. -/
inductive Event : Type
  | stat (p : String)
  | readFile (p : String)
  | readEnv (v : String)
  | constructSigner
deriving DecidableEq, Repr

/-- A local cert/key byte buffer at the moment it is dropped: its original
contents and whether `zeroize()` was called on it first. -/
structure BufferRecord where
  data : List Nat
  zeroized : Bool
deriving DecidableEq, Repr

/-- Conversion `String::into_bytes` for the (ASCII-modelled) env payloads. -/
def strBytes (s : String) : List Nat := asciiBytes s

/-- Function `check_private_key_permissions` (the `cfg(unix)` version): stat the
file and reject any group/other permission bits. -/
def check_private_key_permissions (env : SysEnv) (path : String) :
    Except EngineError Unit :=
  match env.fileModes path with
  | none => .error (.Config ("Failed to stat key file: " ++ path))
  | some mode =>
    if mode &&& 0o77 ≠ 0 then
      .error (.Config ("Insecure key file permissions for " ++ path ++
        " (expected 0600 or stricter)"))
    else .ok ()

/-- The construct-then-zeroize tail shared by the acquisition sites
(`async_signer_from_cert_chain_and_private_key` followed, on success only,
by `cert.zeroize(); key.zeroize()`; the `map_err(..)?` on failure returns
early and drops both buffers without zeroizing). -/
def constructAndZeroize (env : SysEnv) (cert key : List Nat) :
    Except EngineError Unit × List Event × List BufferRecord :=
  if env.signerOk cert key then
    (.ok (), [.constructSigner], [⟨cert, true⟩, ⟨key, true⟩])
  else
    (.error (.C2pa "signer construction failed"), [.constructSigner],
      [⟨cert, false⟩, ⟨key, false⟩])

/-- Function `create_cawg_raw_signer`: build the CAWG raw signer from the CAWG
identity configuration (lines 120-207). -/
def create_cawg_raw_signer (env : SysEnv) (cfg : CawgIdentity)
    (main_signer : Signer) :
    Except EngineError Unit × List Event × List BufferRecord :=
  match cfg.signer with
  | .UseMainSigner =>
    match main_signer with
    | .Local cert_path key_path =>
      match check_private_key_permissions env key_path with
      | .error e => (.error e, [.stat key_path], [])
      | .ok _ =>
        match env.fileData cert_path with
        | none => (.error (.Config ("Failed to read main cert: " ++ cert_path)),
            [.stat key_path, .readFile cert_path], [])
        | some c =>
          match env.fileData key_path with
          | none => (.error (.Config ("Failed to read main key: " ++ key_path)),
              [.stat key_path, .readFile cert_path, .readFile key_path], [⟨c, false⟩])
          | some k =>
            let (r, evs, recs) := constructAndZeroize env c k
            (r, [.stat key_path, .readFile cert_path, .readFile key_path] ++ evs, recs)
    | .Env cert_var key_var =>
      -- `env::var(..)?.into_bytes()` per variable: the cert byte buffer
      -- already exists when the key variable turns out to be missing
      match env.envVars cert_var with
      | none => (.error (.Config ("Main cert env var not found: " ++ cert_var)),
          [.readEnv cert_var], [])
      | some cs =>
        match env.envVars key_var with
        | none => (.error (.Config ("Main key env var not found: " ++ key_var)),
            [.readEnv cert_var, .readEnv key_var], [⟨strBytes cs, false⟩])
        | some ks =>
          let (r, evs, recs) := constructAndZeroize env (strBytes cs) (strBytes ks)
          (r, [.readEnv cert_var, .readEnv key_var] ++ evs, recs)
  | .Separate (.Local cert_path key_path) =>
    match check_private_key_permissions env key_path with
    | .error e => (.error e, [.stat key_path], [])
    | .ok _ =>
      match env.fileData cert_path with
      | none => (.error (.Config ("Failed to read CAWG cert: " ++ cert_path)),
          [.stat key_path, .readFile cert_path], [])
      | some c =>
        match env.fileData key_path with
        | none => (.error (.Config ("Failed to read CAWG key: " ++ key_path)),
            [.stat key_path, .readFile cert_path, .readFile key_path], [⟨c, false⟩])
        | some k =>
          let (r, evs, recs) := constructAndZeroize env c k
          (r, [.stat key_path, .readFile cert_path, .readFile key_path] ++ evs, recs)
  | .Separate (.Env cert_var key_var) =>
    -- here both env payloads are read as `String`s first; `into_bytes`
    -- happens only after both lookups succeed, so a missing key variable
    -- drops no byte buffer
    match env.envVars cert_var with
    | none => (.error (.Config ("CAWG cert env var not found: " ++ cert_var)),
        [.readEnv cert_var], [])
    | some cs =>
      match env.envVars key_var with
      | none => (.error (.Config ("CAWG key env var not found: " ++ key_var)),
          [.readEnv cert_var, .readEnv key_var], [])
      | some ks =>
        let (r, evs, recs) := constructAndZeroize env (strBytes cs) (strBytes ks)
        (r, [.readEnv cert_var, .readEnv key_var] ++ evs, recs)

/-- Lines 81-113 of `create_cawg_signer`, after the main cert/key buffers
have been acquired: build the main raw signer (zeroizing on success,
returning early without zeroizing on failure), then build the CAWG raw
signer and assemble the identity-assertion signer. -/
def afterAcquire (env : SysEnv) (cert key : List Nat) (cfg : CawgIdentity)
    (main_signer : Signer) (evs : List Event) :
    Except EngineError Unit × List Event × List BufferRecord :=
  match constructAndZeroize env cert key with
  | (.error e, evs1, recs1) => (.error e, evs ++ evs1, recs1)
  | (.ok _, evs1, recs1) =>
    match create_cawg_raw_signer env cfg main_signer with
    | (.ok _, evs2, recs2) => (.ok (), evs ++ evs1 ++ evs2, recs1 ++ recs2)
    | (.error e, evs2, recs2) => (.error e, evs ++ evs1 ++ evs2, recs1 ++ recs2)

/-- Function `create_cawg_signer` (lines 51-114): acquire the main signer's
cert/key bytes (permission check before any filesystem read on the
`Local` arm), then `afterAcquire`. -/
def create_cawg_signer (env : SysEnv) (main_signer : Signer)
    (cfg : CawgIdentity) :
    Except EngineError Unit × List Event × List BufferRecord :=
  match main_signer with
  | .Local cert_path key_path =>
    match check_private_key_permissions env key_path with
    | .error e => (.error e, [.stat key_path], [])
    | .ok _ =>
      match env.fileData cert_path with
      | none => (.error (.Config ("Failed to read cert: " ++ cert_path)),
          [.stat key_path, .readFile cert_path], [])
      | some c =>
        match env.fileData key_path with
        | none => (.error (.Config ("Failed to read key: " ++ key_path)),
            [.stat key_path, .readFile cert_path, .readFile key_path], [⟨c, false⟩])
        | some k =>
          afterAcquire env c k cfg main_signer
            [.stat key_path, .readFile cert_path, .readFile key_path]
  | .Env cert_var key_var =>
    match env.envVars cert_var with
    | none => (.error (.Config ("Cert env var not found: " ++ cert_var)),
        [.readEnv cert_var], [])
    | some cs =>
      match env.envVars key_var with
      | none => (.error (.Config ("Key env var not found: " ++ key_var)),
          [.readEnv cert_var, .readEnv key_var], [⟨strBytes cs, false⟩])
      | some ks =>
        afterAcquire env (strBytes cs) (strBytes ks) cfg main_signer
          [.readEnv cert_var, .readEnv key_var]


/-! ## Concrete inputs used by counterexamples and witnesses -/

/-- The host constructor matching a literal IP address. -/
def hostOfIp : IpAddr → Host
  | .v4 a => .ipv4 a
  | .v6 a => .ipv6 a

/-- A minimal ICO header (icon type `01 00`, one 16x16 entry): the spec
lists ICO in the sniffer table, the source does not. -/
def icoHeader : List Nat :=
  [0x00, 0x00, 0x01, 0x00, 0x01, 0x00, 0x10, 0x10,
   0x00, 0x00, 0x01, 0x00, 0x04, 0x00, 0x28, 0x01]

/-- A minimal BMP header (`BM` plus file-size/reserved/offset fields). -/
def bmpHeader : List Nat :=
  [0x42, 0x4D, 0x46, 0x00, 0x00, 0x00, 0x00, 0x00,
   0x00, 0x00, 0x36, 0x00, 0x00, 0x00]

/-- Environment for the C2 counterexample: both credential files exist with
a safe key mode, but signer construction fails. -/
def envC2fail : SysEnv :=
  { fileModes := fun p => if p = "k.pem" then some 0o600 else none
    fileData := fun p =>
      if p = "c.pem" then some [1, 2]
      else if p = "k.pem" then some [3, 4] else none
    envVars := fun _ => none
    signerOk := fun _ _ => false }

/-- Environment for the C2 witness: the same credentials with signer
construction succeeding. -/
def envC2ok : SysEnv :=
  { fileModes := fun p => if p = "k.pem" then some 0o600 else none
    fileData := fun p =>
      if p = "c.pem" then some [1, 2]
      else if p = "k.pem" then some [3, 4] else none
    envVars := fun _ => none
    signerOk := fun _ _ => true }

/-- Environment for the C7 witness: a key file with mode `0640`. -/
def envC7bad : SysEnv :=
  { fileModes := fun p => if p = "k.pem" then some 0o640 else none
    fileData := fun p =>
      if p = "c.pem" then some [1, 2]
      else if p = "k.pem" then some [3, 4] else none
    envVars := fun _ => none
    signerOk := fun _ _ => true }

/-- Environment for the C7 witness: a key file with mode `0600`. -/
def envC7good : SysEnv :=
  { fileModes := fun p => if p = "k.pem" then some 0o600 else none
    fileData := fun p =>
      if p = "c.pem" then some [1, 2]
      else if p = "k.pem" then some [3, 4] else none
    envVars := fun _ => none
    signerOk := fun _ _ => true }

end QueEngine

namespace QueEngine

/-! ## Helper lemmas -/

/-- If every fragment is accepted by the library, the patch loop of
`apply_settings` succeeds. -/
theorem applySettingsLoop_all_ok (ps : List SettingsPatch) (st : SettingsState)
    (h : ∀ p ∈ ps, p.ok = true) :
    ∃ st2, applySettingsLoop ps st = (.ok (), st2) := by
  induction ps generalizing st with
  | nil => exact ⟨st, rfl⟩
  | cons p rest ih =>
    have hp : p.ok = true := h p (by simp)
    simpa [applySettingsLoop, hp] using
      ih (st ++ [p.id]) (fun q hq => h q (by simp [hq]))

/-! ## C1: settings state after `with_c2pa_settings` -/

/-- C1 counterexample: when the second patch fragment fails to apply, the
`?` on `apply_settings` returns before the restore line runs, so a
subsequent read observes the first fragment, not the empty baseline. -/
theorem c1_state_not_restored_on_patch_failure :
    (with_c2pa_settings (T := Nat) false
        [{ id := 1, ok := true }, { id := 2, ok := false }] (.ok 0) []).2 = [1] ∧
      ([1] : SettingsState) ≠ [] := by
  exact ⟨rfl, by decide⟩

/-- C1 (amended): provided every patch fragment applies successfully, the
settings state after `with_c2pa_settings` returns is the empty baseline,
whether the operation succeeds, returns a typed error, or panics; when a
fragment fails to apply, the already-applied fragments are left behind. -/
theorem c1_baseline_restored_when_patches_apply {T : Type}
    (patches : List SettingsPatch) (f : OpOutcome T) (s : SettingsState)
    (h : ∀ p ∈ patches, p.ok = true) :
    (with_c2pa_settings false patches f s).2 = [] := by
  obtain ⟨st2, hst⟩ := applySettingsLoop_all_ok patches [] h
  cases f <;> simp [with_c2pa_settings, apply_settings, hst]

/-- C1 witness: a concrete run with one applicable patch ends at the
baseline. -/
theorem c1_witness :
    (∀ p ∈ [({ id := 1, ok := true } : SettingsPatch)], p.ok = true) ∧
      (with_c2pa_settings (T := Nat) false [{ id := 1, ok := true }]
        (.ok 0) [5]).2 = [] :=
  ⟨by decide, c1_baseline_restored_when_patches_apply _ _ _ (by decide)⟩

/-! ## C8: captured panics and mutex poisoning -/

/-- C8: a panic of the wrapped operation is caught at the guard boundary
and surfaced as the typed `Panic` ("internal fault") error with the
baseline restored; and when the mutex is poisoned, acquisition fails with
the fatal poisoning error without running the operation (the outcome is
the same for every operation and the state is untouched). -/
theorem c8_panic_caught_poison_fatal {T : Type} (patches : List SettingsPatch)
    (f : OpOutcome T) (s s2 : SettingsState) (h : ∀ p ∈ patches, p.ok = true) :
    with_c2pa_settings (T := T) false patches .panics s =
        (.error (.Panic "c2pa adapter panicked"), []) ∧
      with_c2pa_settings true patches f s2 =
        (.error (.Panic "settings mutex poisoned"), s2) := by
  obtain ⟨st2, hst⟩ := applySettingsLoop_all_ok patches [] h
  exact ⟨by simp [with_c2pa_settings, apply_settings, hst],
    by simp [with_c2pa_settings]⟩

/-- C8 witness at a concrete patch list, operation and state. -/
theorem c8_witness :
    (∀ p ∈ ([] : List SettingsPatch), p.ok = true) ∧
      (with_c2pa_settings (T := Nat) false [] .panics [] =
          (.error (.Panic "c2pa adapter panicked"), []) ∧
        with_c2pa_settings (T := Nat) true [] (.ok 7) [3] =
          (.error (.Panic "settings mutex poisoned"), [3])) :=
  ⟨by decide, c8_panic_caught_poison_fatal [] (.ok 7) [] [3] (by decide)⟩

/-! ## C3: literal-IP host rejection -/

/-- C3 counterexample: the IPv4 arm of the blocklist has no multicast
test, so `https://224.0.0.1/` passes validation (the resolver argument is
the deterministic literal resolution of `224.0.0.1:443`), contradicting
the claim that every special-range literal, multicast included, draws a
Configuration error. -/
theorem c3_ipv4_multicast_not_rejected :
    validate_external_http_url false (some [.v4 ⟨224, 0, 0, 1⟩]) "https"
      (some (.ipv4 ⟨224, 0, 0, 1⟩)) false = .ok () := by rfl

/-- C3 (amended): for every https URL whose host is a literal IP in the
ranges the code actually blocks — IPv4: private, loopback, link-local,
broadcast, documentation, unspecified; IPv6: loopback, unique-local,
unicast link-local, unspecified, multicast — validation returns a
Configuration error, for any `allow_http`, build feature, and resolver
outcome.  IPv4 multicast is not in the blocked set. -/
theorem c3_blocked_ip_literal_rejected (ip : IpAddr) (feat allow_http : Bool)
    (resolved : Option (List IpAddr)) (h : ipBlocked ip = true) :
    validate_external_http_url feat resolved "https" (some (hostOfIp ip))
        allow_http =
      .error (.Config "URL host is not allowed (private/link-local/loopback)") := by
  cases ip <;> simp [validate_external_http_url, hostOfIp, h]

/-- C3 witness: the loopback literal `https://127.0.0.1/` is rejected. -/
theorem c3_witness :
    ipBlocked (.v4 ⟨127, 0, 0, 1⟩) = true ∧
      validate_external_http_url false (some [.v4 ⟨127, 0, 0, 1⟩]) "https"
          (some (hostOfIp (.v4 ⟨127, 0, 0, 1⟩))) false =
        .error (.Config "URL host is not allowed (private/link-local/loopback)") :=
  ⟨by decide, c3_blocked_ip_literal_rejected _ _ _ _ (by decide)⟩

/-! ## C10: unresolvable domains pass validation -/

/-- C10: for an https URL with a domain-name host, a DNS resolution
failure (`to_socket_addrs` returning `Err`) is treated as acceptance:
validation returns `Ok` for every domain and every `allow_http` and
feature setting. -/
theorem c10_unresolvable_domain_accepted (d : String) (feat allow_http : Bool) :
    validate_external_http_url feat none "https" (some (.domain d))
      allow_http = .ok () := by rfl

end QueEngine

namespace QueEngine

/-- Loop invariant of `copy_with_limits`: with the running total matching
the bytes already written and still under the cap, the copy either stays
under the cap or aborts with a Configuration error before writing the
offending chunk, so the destination never exceeds the cap. -/
theorem copyLoop_spec (chunks : List (List Nat)) (total : Nat)
    (written : List Nat) (maxBytes : Nat) (hw : written.length = total)
    (hle : total ≤ maxBytes) :
    (streamLen chunks + total > maxBytes →
        ∃ msg, (copyLoop chunks total written maxBytes).1 = .error (.Config msg)) ∧
      (copyLoop chunks total written maxBytes).2.length ≤ maxBytes := by
  induction chunks generalizing total written with
  | nil =>
    refine ⟨fun hgt => absurd hgt ?_, ?_⟩
    · simp [streamLen]; omega
    · simpa [copyLoop, hw] using hle
  | cons c rest ih =>
    by_cases hc : c.length = 0
    · refine ⟨fun hgt => absurd hgt ?_, ?_⟩
      · simp [streamLen, hc]; omega
      · simpa [copyLoop, hc, hw] using hle
    · by_cases hgt : total + c.length > maxBytes
      · refine ⟨fun _ => ⟨"Stream size limit exceeded: " ++
            toString (total + c.length) ++ " bytes (max: " ++
            toString maxBytes ++ ")", ?_⟩, ?_⟩
        · simp [copyLoop, hc, hgt]
        · simp only [copyLoop, hc, if_neg hc, if_pos hgt]
          simpa [hw] using hle
      · have hle2 : total + c.length ≤ maxBytes := by omega
        have hw2 : (written ++ c).length = total + c.length := by simp [hw]
        obtain ⟨ih1, ih2⟩ := ih (total + c.length) (written ++ c) hw2 hle2
        refine ⟨fun hover => ?_, ?_⟩
        · have : streamLen rest + (total + c.length) > maxBytes := by
            simp [streamLen, hc] at hover; omega
          simpa [copyLoop, hc, hgt] using ih1 this
        · simpa [copyLoop, hc, hgt] using ih2

/-! ## C4: the stream-copy cap -/

/-- C4: for every reader whose total length exceeds the cap,
`copy_with_limits` returns a Configuration (size) error rather than a
truncated success, and the bytes written to the destination never exceed
the cap (the chunk that would overflow is not written). -/
theorem c4_stream_cap_enforced (chunks : List (List Nat)) (maxBytes : Nat)
    (h : streamLen chunks > maxBytes) :
    (∃ msg, (copy_with_limits chunks maxBytes).1 = .error (.Config msg)) ∧
      (copy_with_limits chunks maxBytes).2.length ≤ maxBytes := by
  obtain ⟨h1, h2⟩ := copyLoop_spec chunks 0 [] maxBytes rfl (Nat.zero_le _)
  exact ⟨h1 (by omega), h2⟩

/-- C4 witness: a 4-byte reader against a 3-byte cap aborts with the size
error after writing only the first chunk. -/
theorem c4_witness :
    streamLen [[1, 1], [2, 2]] > 3 ∧
      ((∃ msg, (copy_with_limits [[1, 1], [2, 2]] 3).1 = .error (.Config msg)) ∧
        (copy_with_limits [[1, 1], [2, 2]] 3).2.length ≤ 3) :=
  ⟨by decide, c4_stream_cap_enforced [[1, 1], [2, 2]] 3 (by decide)⟩

/-! ## C5: sniff read and rewind failures on the `Stream` arm -/

/-- C5 counterexample: a hint-less stream whose sniff read fails and whose
rewind to position 0 fails still materializes successfully — the source
swallows the read error (`unwrap_or(0)`) and discards the seek result
(`let _ =`), so no hard error is returned. -/
theorem c5_rewind_failure_not_an_error :
    (asset_to_temp_path true (.stream none false [] none)
        LimitsConfig.defaults).1 = .ok ("asset", true) := by rfl

/-- C5 (amended): on the hint-less `Stream` arm the sniff read's failure
is treated as having read zero bytes and the rewind's outcome is ignored:
the result of `asset_to_temp_path` is identical whether the rewind
succeeds or fails, and a failed sniff read behaves exactly like an empty
one, instead of either failure being surfaced as a hard error. -/
theorem c5_sniff_and_rewind_failures_ignored (sniffRead : Option (List Nat))
    (seekOk seekOk2 : Bool) (body : List (List Nat)) (ct : Option String)
    (fsOk : Bool) (limits : LimitsConfig) :
    asset_to_temp_path fsOk (.stream sniffRead seekOk body ct) limits =
        asset_to_temp_path fsOk (.stream sniffRead seekOk2 body ct) limits ∧
      asset_to_temp_path fsOk (.stream none seekOk body ct) limits =
        asset_to_temp_path fsOk (.stream (some []) seekOk body ct) limits := by
  exact ⟨rfl, rfl⟩

/-! ## C6: oversized byte buffers are rejected before any filesystem effect -/

/-- C6: a `Bytes` asset longer than `max_in_memory_asset_size` draws the
Configuration error with no temp directory created and no bytes written. -/
theorem c6_oversized_bytes_no_fs_effect (data : List Nat)
    (limits : LimitsConfig) (fsOk : Bool)
    (h : data.length > limits.max_in_memory_asset_size) :
    asset_to_temp_path fsOk (.bytes data) limits =
      (.error (.Config "in-memory asset too large"), ⟨0, []⟩) := by
  simp [asset_to_temp_path, h]

/-- C6 witness: a 2-byte buffer against a 1-byte cap. -/
theorem c6_witness :
    ([1, 2] : List Nat).length > 1 ∧
      asset_to_temp_path true (.bytes [1, 2])
          { max_in_memory_asset_size := 1, max_in_memory_output_size := 1,
            max_stream_copy_size := 1, max_stream_read_timeout_secs := 1 } =
        (.error (.Config "in-memory asset too large"), ⟨0, []⟩) :=
  ⟨by decide, c6_oversized_bytes_no_fs_effect _ _ _ (by decide)⟩

end QueEngine

namespace QueEngine

/-! ## C9: the ContentSniffer signature table -/

/-- C9 counterexample: the spec's table lists ICO and BMP, but the source
has no ICO or BMP branch — minimal valid ICO and BMP headers match no
signature and return `none` instead of an `ico`/`bmp` tag. -/
theorem c9_ico_bmp_missing_from_table :
    detect_extension_from_bytes icoHeader = none ∧
      detect_extension_from_bytes bmpHeader = none := by
  exact ⟨rfl, rfl⟩

/-- C9 (amended): for each signature actually in the table — JPEG, PNG,
GIF (87a/89a), the RIFF containers (WEBP/WAVE/AVI), TIFF (both byte
orders), ISO-BMFF brands (heic/heif/avif, the mp4 brands, qt, M4A, and
the `mp4` default for unknown brands and for short `ftyp` headers), PDF,
the SVG heuristic, and MP3 (ID3 tag or frame-sync byte) — detection on a
minimal valid header returns the expected tag, in table order with the
first match winning; a buffer matching none of them (and a minimal ICO or
BMP header in particular) returns `none`. -/
theorem c9_signature_table :
    detect_extension_from_bytes [0xFF, 0xD8, 0xFF] = some "jpg" ∧
    detect_extension_from_bytes
        [0x89, 0x50, 0x4E, 0x47, 0x0D, 0x0A, 0x1A, 0x0A] = some "png" ∧
    detect_extension_from_bytes (asciiBytes "GIF87a") = some "gif" ∧
    detect_extension_from_bytes (asciiBytes "GIF89a") = some "gif" ∧
    detect_extension_from_bytes
        (asciiBytes "RIFF" ++ [0, 0, 0, 0] ++ asciiBytes "WEBP") = some "webp" ∧
    detect_extension_from_bytes
        (asciiBytes "RIFF" ++ [0, 0, 0, 0] ++ asciiBytes "WAVE") = some "wav" ∧
    detect_extension_from_bytes
        (asciiBytes "RIFF" ++ [0, 0, 0, 0] ++ asciiBytes "AVI ") = some "avi" ∧
    detect_extension_from_bytes [0x49, 0x49, 0x2A, 0x00] = some "tiff" ∧
    detect_extension_from_bytes [0x4D, 0x4D, 0x00, 0x2A] = some "tiff" ∧
    detect_extension_from_bytes
        ([0, 0, 0, 16] ++ asciiBytes "ftyp" ++ asciiBytes "heic" ++ [0, 0, 0, 0]) =
      some "heic" ∧
    detect_extension_from_bytes
        ([0, 0, 0, 16] ++ asciiBytes "ftyp" ++ asciiBytes "heif" ++ [0, 0, 0, 0]) =
      some "heif" ∧
    detect_extension_from_bytes
        ([0, 0, 0, 16] ++ asciiBytes "ftyp" ++ asciiBytes "avif" ++ [0, 0, 0, 0]) =
      some "avif" ∧
    detect_extension_from_bytes
        ([0, 0, 0, 16] ++ asciiBytes "ftyp" ++ asciiBytes "isom" ++ [0, 0, 0, 0]) =
      some "mp4" ∧
    detect_extension_from_bytes
        ([0, 0, 0, 16] ++ asciiBytes "ftyp" ++ asciiBytes "qt  " ++ [0, 0, 0, 0]) =
      some "mov" ∧
    detect_extension_from_bytes
        ([0, 0, 0, 16] ++ asciiBytes "ftyp" ++ asciiBytes "M4A " ++ [0, 0, 0, 0]) =
      some "m4a" ∧
    detect_extension_from_bytes
        ([0, 0, 0, 16] ++ asciiBytes "ftyp" ++ asciiBytes "zzzz" ++ [0, 0, 0, 0]) =
      some "mp4" ∧
    detect_extension_from_bytes
        ([0, 0, 0, 12] ++ asciiBytes "ftyp" ++ asciiBytes "isom") = some "mp4" ∧
    detect_extension_from_bytes (asciiBytes "%PDF-") = some "pdf" ∧
    detect_extension_from_bytes (asciiBytes "<svg>") = some "svg" ∧
    detect_extension_from_bytes (asciiBytes "ID3") = some "mp3" ∧
    detect_extension_from_bytes [0xFF, 0xFB] = some "mp3" ∧
    detect_extension_from_bytes [1, 2, 3] = none ∧
    detect_extension_from_bytes icoHeader = none ∧
    detect_extension_from_bytes bmpHeader = none := by
  exact ⟨rfl, rfl, rfl, rfl, rfl, rfl, rfl, rfl, rfl, rfl, rfl, rfl, rfl,
    rfl, rfl, rfl, rfl, rfl, rfl, rfl, rfl, rfl, rfl, rfl⟩

end QueEngine

namespace QueEngine

/-- On success, `constructAndZeroize` records both buffers as zeroized. -/
theorem constructAndZeroize_ok (env : SysEnv) (cert key : List Nat)
    (h : (constructAndZeroize env cert key).1 = .ok ()) :
    (constructAndZeroize env cert key).2.2 = [⟨cert, true⟩, ⟨key, true⟩] := by
  by_cases hs : env.signerOk cert key
  · simp [constructAndZeroize, hs]
  · simp [constructAndZeroize, hs] at h

/-- Whenever `create_cawg_raw_signer` succeeds, every cert/key buffer it
allocated was zeroized before being dropped. -/
theorem create_cawg_raw_signer_ok_zeroized (env : SysEnv) (cfg : CawgIdentity)
    (main_signer : Signer)
    (h : (create_cawg_raw_signer env cfg main_signer).1 = .ok ()) :
    ∀ b ∈ (create_cawg_raw_signer env cfg main_signer).2.2, b.zeroized = true := by
  obtain ⟨cs⟩ := cfg
  cases cs with
  | UseMainSigner =>
    cases main_signer with
    | Local cp kp =>
      cases hperm : check_private_key_permissions env kp with
      | error e => simp [create_cawg_raw_signer, hperm] at h
      | ok u =>
        cases hc : env.fileData cp with
        | none => simp [create_cawg_raw_signer, hperm, hc] at h
        | some c =>
          cases hk : env.fileData kp with
          | none => simp [create_cawg_raw_signer, hperm, hc, hk] at h
          | some k =>
            by_cases hs : env.signerOk c k
            · intro b hb
              simp [create_cawg_raw_signer, hperm, hc, hk,
                constructAndZeroize, hs] at hb
              rcases hb with hb | hb <;> simp [hb]
            · simp [create_cawg_raw_signer, hperm, hc, hk,
                constructAndZeroize, hs] at h
    | Env cv kv =>
      cases hc : env.envVars cv with
      | none => simp [create_cawg_raw_signer, hc] at h
      | some cstr =>
        cases hk : env.envVars kv with
        | none => simp [create_cawg_raw_signer, hc, hk] at h
        | some kstr =>
          by_cases hs : env.signerOk (strBytes cstr) (strBytes kstr)
          · intro b hb
            simp [create_cawg_raw_signer, hc, hk, constructAndZeroize, hs] at hb
            rcases hb with hb | hb <;> simp [hb]
          · simp [create_cawg_raw_signer, hc, hk, constructAndZeroize, hs] at h
  | Separate s =>
    cases s with
    | Local cp kp =>
      cases hperm : check_private_key_permissions env kp with
      | error e => simp [create_cawg_raw_signer, hperm] at h
      | ok u =>
        cases hc : env.fileData cp with
        | none => simp [create_cawg_raw_signer, hperm, hc] at h
        | some c =>
          cases hk : env.fileData kp with
          | none => simp [create_cawg_raw_signer, hperm, hc, hk] at h
          | some k =>
            by_cases hs : env.signerOk c k
            · intro b hb
              simp [create_cawg_raw_signer, hperm, hc, hk,
                constructAndZeroize, hs] at hb
              rcases hb with hb | hb <;> simp [hb]
            · simp [create_cawg_raw_signer, hperm, hc, hk,
                constructAndZeroize, hs] at h
    | Env cv kv =>
      cases hc : env.envVars cv with
      | none => simp [create_cawg_raw_signer, hc] at h
      | some cstr =>
        cases hk : env.envVars kv with
        | none => simp [create_cawg_raw_signer, hc, hk] at h
        | some kstr =>
          by_cases hs : env.signerOk (strBytes cstr) (strBytes kstr)
          · intro b hb
            simp [create_cawg_raw_signer, hc, hk, constructAndZeroize, hs] at hb
            rcases hb with hb | hb <;> simp [hb]
          · simp [create_cawg_raw_signer, hc, hk, constructAndZeroize, hs] at h

/-- Whenever the post-acquisition tail of `create_cawg_signer` succeeds,
every buffer it recorded was zeroized before being dropped. -/
theorem afterAcquire_ok_zeroized (env : SysEnv) (cert key : List Nat)
    (cfg : CawgIdentity) (main_signer : Signer) (evs : List Event)
    (h : (afterAcquire env cert key cfg main_signer evs).1 = .ok ()) :
    ∀ b ∈ (afterAcquire env cert key cfg main_signer evs).2.2,
      b.zeroized = true := by
  by_cases hs : env.signerOk cert key
  · rcases hraw : create_cawg_raw_signer env cfg main_signer with ⟨r2, evs2, recs2⟩
    cases r2 with
    | error e => simp [afterAcquire, constructAndZeroize, hs, hraw] at h
    | ok u =>
      cases u
      intro b hb
      simp [afterAcquire, constructAndZeroize, hs, hraw] at hb
      rcases hb with hb | hb | hb
      · simp [hb]
      · simp [hb]
      · exact create_cawg_raw_signer_ok_zeroized env cfg main_signer
          (by simp [hraw]) b (by simp [hraw, hb])
  · simp [afterAcquire, constructAndZeroize, hs] at h

/-! ## C2: zeroization of cert/key buffers -/

/-- C2 counterexample: when the underlying signer construction fails, the
`map_err(..)?` returns before the `zeroize()` calls, so the cert buffer
(and the key buffer) is dropped with its contents intact, contradicting
"zeroized on every exit path". -/
theorem c2_unzeroized_buffers_on_signer_failure :
    (create_cawg_signer envC2fail (.Local "c.pem" "k.pem") ⟨.UseMainSigner⟩).1 =
        .error (.C2pa "signer construction failed") ∧
      (⟨[1, 2], false⟩ : BufferRecord) ∈
        (create_cawg_signer envC2fail (.Local "c.pem" "k.pem")
          ⟨.UseMainSigner⟩).2.2 := by
  exact ⟨rfl, by decide⟩

/-- C2 (amended): in every signer-construction path of `create_cawg_signer`
and `create_cawg_raw_signer` that returns success, the local certificate
and private-key buffers are zeroized before being dropped; on the paths
where signer construction (or the second read of a pair) fails, the
already-filled buffers are dropped without being zeroized. -/
theorem c2_buffers_zeroized_on_success (env : SysEnv) (main_signer : Signer)
    (cfg : CawgIdentity) :
    ((create_cawg_signer env main_signer cfg).1 = .ok () →
        ∀ b ∈ (create_cawg_signer env main_signer cfg).2.2,
          b.zeroized = true) ∧
      ((create_cawg_raw_signer env cfg main_signer).1 = .ok () →
        ∀ b ∈ (create_cawg_raw_signer env cfg main_signer).2.2,
          b.zeroized = true) := by
  refine ⟨?_, create_cawg_raw_signer_ok_zeroized env cfg main_signer⟩
  intro h
  cases main_signer with
  | Local cp kp =>
    cases hperm : check_private_key_permissions env kp with
    | error e => simp [create_cawg_signer, hperm] at h
    | ok u =>
      cases hc : env.fileData cp with
      | none => simp [create_cawg_signer, hperm, hc] at h
      | some c =>
        cases hk : env.fileData kp with
        | none => simp [create_cawg_signer, hperm, hc, hk] at h
        | some k =>
          intro b hb
          exact afterAcquire_ok_zeroized env c k cfg (.Local cp kp) _
            (by simpa [create_cawg_signer, hperm, hc, hk] using h) b
            (by simpa [create_cawg_signer, hperm, hc, hk] using hb)
  | Env cv kv =>
    cases hc : env.envVars cv with
    | none => simp [create_cawg_signer, hc] at h
    | some cstr =>
      cases hk : env.envVars kv with
      | none => simp [create_cawg_signer, hc, hk] at h
      | some kstr =>
        intro b hb
        exact afterAcquire_ok_zeroized env (strBytes cstr) (strBytes kstr) cfg
          (.Env cv kv) _
          (by simpa [create_cawg_signer, hc, hk] using h) b
          (by simpa [create_cawg_signer, hc, hk] using hb)

/-- C2 witness: a concrete successful dual-signer construction in which
every recorded buffer was zeroized. -/
theorem c2_witness :
    (create_cawg_signer envC2ok (.Local "c.pem" "k.pem") ⟨.UseMainSigner⟩).1 =
        .ok () ∧
      ∀ b ∈ (create_cawg_signer envC2ok (.Local "c.pem" "k.pem")
          ⟨.UseMainSigner⟩).2.2, b.zeroized = true :=
  ⟨rfl, (c2_buffers_zeroized_on_success envC2ok (.Local "c.pem" "k.pem")
      ⟨.UseMainSigner⟩).1 rfl⟩

/-! ## C7: key-file permission checks -/

/-- C7: for a filesystem key source, the key file's permission bits are
checked before any file read: a mode with group/other bits set (such as
`0640`) draws the Configuration error with the stat as the only observed
event (no read of the key file's contents), while a clean mode (such as
`0600`) proceeds through the reads to signer construction. -/
theorem c7_key_permissions_checked_before_read (env env2 : SysEnv)
    (cp kp cp2 kp2 : String) (cfg cfg2 : CawgIdentity) (m m2 : Nat)
    (cert key : List Nat)
    (hmode : env.fileModes kp = some m) (hbad : m &&& 0o77 ≠ 0)
    (hmode2 : env2.fileModes kp2 = some m2) (hgood : m2 &&& 0o77 = 0)
    (hcert : env2.fileData cp2 = some cert)
    (hkey : env2.fileData kp2 = some key) :
    ((create_cawg_signer env (.Local cp kp) cfg).1 =
        .error (.Config ("Insecure key file permissions for " ++ kp ++
          " (expected 0600 or stricter)")) ∧
      (create_cawg_signer env (.Local cp kp) cfg).2.1 = [.stat kp]) ∧
    Event.constructSigner ∈
      (create_cawg_signer env2 (.Local cp2 kp2) cfg2).2.1 := by
  have hpermbad : check_private_key_permissions env kp =
      .error (.Config ("Insecure key file permissions for " ++ kp ++
        " (expected 0600 or stricter)")) := by
    simp [check_private_key_permissions, hmode, hbad]
  have hpermgood : check_private_key_permissions env2 kp2 = .ok () := by
    simp [check_private_key_permissions, hmode2, hgood]
  refine ⟨⟨?_, ?_⟩, ?_⟩
  · simp [create_cawg_signer, hpermbad]
  · simp [create_cawg_signer, hpermbad]
  · by_cases hs : env2.signerOk cert key
    · rcases hraw : create_cawg_raw_signer env2 cfg2 (.Local cp2 kp2) with
        ⟨r2, evs2, recs2⟩
      cases r2 <;>
        simp [create_cawg_signer, hpermgood, hcert, hkey, afterAcquire,
          constructAndZeroize, hs, hraw]
    · simp [create_cawg_signer, hpermgood, hcert, hkey, afterAcquire,
        constructAndZeroize, hs]

/-- C7 witness: a `0640` key file is rejected with only the stat observed;
a `0600` key file reaches signer construction. -/
theorem c7_witness :
    (envC7bad.fileModes "k.pem" = some 0o640 ∧ (0o640 &&& 0o77 ≠ 0) ∧
      envC7good.fileModes "k.pem" = some 0o600 ∧ ((0o600 : Nat) &&& 0o77 = 0) ∧
      envC7good.fileData "c.pem" = some [1, 2] ∧
      envC7good.fileData "k.pem" = some [3, 4]) ∧
    (((create_cawg_signer envC7bad (.Local "c.pem" "k.pem")
          ⟨.UseMainSigner⟩).1 =
        .error (.Config ("Insecure key file permissions for " ++ "k.pem" ++
          " (expected 0600 or stricter)")) ∧
      (create_cawg_signer envC7bad (.Local "c.pem" "k.pem")
          ⟨.UseMainSigner⟩).2.1 = [.stat "k.pem"]) ∧
    Event.constructSigner ∈
      (create_cawg_signer envC7good (.Local "c.pem" "k.pem")
        ⟨.UseMainSigner⟩).2.1) :=
  ⟨⟨by decide, by decide, by decide, by decide, by decide, by decide⟩,
    c7_key_permissions_checked_before_read envC7bad envC7good "c.pem" "k.pem"
      "c.pem" "k.pem" ⟨.UseMainSigner⟩ ⟨.UseMainSigner⟩ 0o640 0o600 [1, 2]
      [3, 4] (by decide) (by decide) (by decide) (by decide) (by decide)
      (by decide)⟩

end QueEngine
